import Mathlib

/-!
Shallow embedding of the `trampoline` wallet background services:
`src/pages/Background/services/keyring.ts` (KeyringService) and
`src/pages/Background/redux-slices/transactions.ts` (transactions slice).

Numeric fields of user operations are carried by the source as ethers
`BigNumberish` values (numbers, decimal strings or `0x`-hex strings) and are
normalized with `ethers.BigNumber.from(x).toHexString()`.  The embedding
models that numeric layer first: parsing (`BigNumber.from`) and the
even-length hex rendering (`toHexString`).
-/

namespace Trampoline

/-- Hex digit character for a value `0..15` (lower case, as ethers renders),
computed from the character code: `48 + n` for `0..9`, `87 + n` for
`10..15`. -/
def hexDigitChar (n : Nat) : Char :=
  if n < 10 then Char.ofNat (48 + n) else Char.ofNat (87 + n)

/-- Numeric value of one hex digit character (either case), `none` for a
non-hex character, read off the character code ranges. -/
def hexCharVal (c : Char) : Option Nat :=
  if 48 ≤ c.toNat ∧ c.toNat ≤ 57 then some (c.toNat - 48)
  else if 97 ≤ c.toNat ∧ c.toNat ≤ 102 then some (c.toNat - 87)
  else if 65 ≤ c.toNat ∧ c.toNat ≤ 70 then some (c.toNat - 55)
  else none

/-- Big-endian accumulating hex parse of a digit list. -/
def parseHexAux : List Char → Nat → Option Nat
  | [], acc => some acc
  | c :: cs, acc =>
    match hexCharVal c with
    | some d => parseHexAux cs (acc * 16 + d)
    | none => none

/-- Parse a list of hex digit characters (most significant first). -/
def parseHexDigits (l : List Char) : Option Nat :=
  parseHexAux l 0

/-- Numeric value of one decimal digit character, read off the character
code range `48..57`. -/
def decCharVal (c : Char) : Option Nat :=
  if 48 ≤ c.toNat ∧ c.toNat ≤ 57 then some (c.toNat - 48) else none

/-- Big-endian accumulating decimal parse of a digit list. -/
def parseDecAux : List Char → Nat → Option Nat
  | [], acc => some acc
  | c :: cs, acc =>
    match decCharVal c with
    | some d => parseDecAux cs (acc * 10 + d)
    | none => none

/-- Parse a list of decimal digit characters (most significant first). -/
def parseDecDigits (l : List Char) : Option Nat :=
  parseDecAux l 0

/-- Fuel-indexed hex digit expansion of a natural number (most significant
first); the fuel only has to dominate the number of digits. -/
def natToHexAux (fuel : Nat) (n : Nat) : List Char :=
  match fuel with
  | 0 => []
  | fuel + 1 =>
    if n = 0 then [] else natToHexAux fuel (n / 16) ++ [hexDigitChar (n % 16)]

/-- Minimal hex digit list of a natural number; `['0']` for zero. -/
def natToHex (n : Nat) : List Char :=
  if n = 0 then ['0'] else natToHexAux n n

/-- Pad a digit list on the left with `'0'` to an even length, as ethers
`BigNumber.toHexString` renders whole bytes. -/
def padEven (l : List Char) : List Char :=
  if l.length % 2 = 1 then '0' :: l else l

/-- Model of `ethers.BigNumber.toHexString`: `0x`-prefixed, lower-case, even length. -/
def toHexString (n : Nat) : String :=
  String.mk ('0' :: 'x' :: padEven (natToHex n))

/-- Model of `ethers.BigNumber.from` on a string: `0x`-prefixed hex, or decimal. -/
def bigNumberFromStr (s : String) : Option Nat :=
  match s.data with
  | '0' :: 'x' :: rest => if rest = [] then none else parseHexDigits rest
  | ds => if ds = [] then none else parseDecDigits ds

/-- An ethers `BigNumberish` input representation: a string (hex or decimal)
or a plain number. -/
inductive BigNumberish where
  | str (s : String)
  | num (n : Nat)
deriving DecidableEq

/-- Model of `ethers.BigNumber.from`: canonical numeric value of a representation,
`none` when the input does not parse (ethers throws there). -/
def bigNumberFrom : BigNumberish → Option Nat
  | .str s => bigNumberFromStr s
  | .num n => some n

/-!
User-operation pipeline of `KeyringService.createUnsignedUserOp`
(`keyring.ts` lines 384-458).  The signer's
`createUnsignedUserOpWithContext` output (a provisional operation whose
numeric fields are still arbitrary `BigNumberish` representations) is the
pipeline's input here; the signer and the relay are external collaborators
passed in as functions.  Inert pass-through fields of the on-wire
`UserOperation` (initCode, paymasterAndData) are folded into `callData` and
`signature`-like pass-through treatment and omitted.
-/

/-- Provisional user operation as returned by the account's
`createUnsignedUserOpWithContext`: numeric fields still in arbitrary
`BigNumberish` representations. -/
structure ProvisionalUserOp where
  sender : String
  callData : String
  signature : String
  nonce : BigNumberish
  callGasLimit : BigNumberish
  verificationGasLimit : BigNumberish
  preVerificationGas : BigNumberish
  maxFeePerGas : BigNumberish
  maxPriorityFeePerGas : BigNumberish
deriving DecidableEq

/-- User operation after the normalization block (`keyring.ts` 408-423):
every numeric field is a string in canonical hex encoding. -/
structure UserOperation where
  sender : String
  callData : String
  signature : String
  nonce : String
  callGasLimit : String
  verificationGasLimit : String
  preVerificationGas : String
  maxFeePerGas : String
  maxPriorityFeePerGas : String
deriving DecidableEq

/-- The normalization block (`keyring.ts` 408-423): every numeric field is
re-encoded as `ethers.BigNumber.from(x).toHexString()`; `none` when some
field fails to parse (ethers throws there). -/
def normalizeUserOp (op : ProvisionalUserOp) : Option UserOperation := do
  let nonce ← bigNumberFrom op.nonce
  let callGasLimit ← bigNumberFrom op.callGasLimit
  let verificationGasLimit ← bigNumberFrom op.verificationGasLimit
  let preVerificationGas ← bigNumberFrom op.preVerificationGas
  let maxFeePerGas ← bigNumberFrom op.maxFeePerGas
  let maxPriorityFeePerGas ← bigNumberFrom op.maxPriorityFeePerGas
  pure
    { sender := op.sender
      callData := op.callData
      signature := op.signature
      nonce := toHexString nonce
      callGasLimit := toHexString callGasLimit
      verificationGasLimit := toHexString verificationGasLimit
      preVerificationGas := toHexString preVerificationGas
      maxFeePerGas := toHexString maxFeePerGas
      maxPriorityFeePerGas := toHexString maxPriorityFeePerGas }

/-- Relay response of `bundler.estimateUserOpGas` (three estimated fields,
still in wire representation). -/
structure EstimateUserOpGasResult where
  callGasLimit : BigNumberish
  verificationGasLimit : BigNumberish
  preVerificationGas : BigNumberish
deriving DecidableEq

/-- An account signer: the placeholder signature it attaches for estimation
and its real key-material signing function. -/
structure AccountSigner where
  dummySignature : String
  realSign : UserOperation → String

/-- Modelled from the spec: the concrete account implementation's
`signUserOp` (in `src/pages/Account/account-api`, not part of the provided
sources) used at `keyring.ts` line 426 attaches a placeholder/dummy
signature for gas estimation and does not invoke the signer's real signing
key. -/
def signUserOp (signer : AccountSigner) (op : UserOperation) : UserOperation :=
  { op with signature := signer.dummySignature }

/-- Gas-merge block (`keyring.ts` 429-455): parse the three relay
estimates, then for each of the three estimated fields adopt the relay's
value only if strictly greater than the current (normalized) field. -/
def mergeGas (op : UserOperation) (g : EstimateUserOpGasResult) :
    Option UserOperation := do
  let estimatedGasLimit ← bigNumberFrom g.callGasLimit
  let estimateVerificationGasLimit ← bigNumberFrom g.verificationGasLimit
  let estimatePreVerificationGas ← bigNumberFrom g.preVerificationGas
  let c1 ← bigNumberFromStr op.callGasLimit
  let op :=
    { op with
      callGasLimit :=
        if c1 < estimatedGasLimit then toHexString estimatedGasLimit
        else op.callGasLimit }
  let c2 ← bigNumberFromStr op.verificationGasLimit
  let op :=
    { op with
      verificationGasLimit :=
        if c2 < estimateVerificationGasLimit then
          toHexString estimateVerificationGasLimit
        else op.verificationGasLimit }
  let c3 ← bigNumberFromStr op.preVerificationGas
  pure
    { op with
      preVerificationGas :=
        if c3 < estimatePreVerificationGas then
          toHexString estimatePreVerificationGas
        else op.preVerificationGas }

/-- Model of `KeyringService.createUnsignedUserOp` (`keyring.ts` 384-458) from the
provisional operation onward: normalize, sign with the estimation
signature, ask the relay (`estimate`) for gas, merge conservatively. -/
def createUnsignedUserOp (signer : AccountSigner)
    (estimate : UserOperation → EstimateUserOpGasResult)
    (prov : ProvisionalUserOp) : Option UserOperation := do
  let norm ← normalizeUserOp prov
  let gasParameters := estimate (signUserOp signer norm)
  mergeGas norm gasParameters

/-!
Keyring service state and vault lifecycle (`keyring.ts` 39-272, 460-489).
The external collaborators (the `@metamask/browser-passworder` encryptor,
the chain provider, the account-implementation registry from
`../constants`) are passed in as function parameters.  JS truthiness of
optional strings is modelled by `truthyOpt`; the JS string-keyed object
`this.keyrings` is modelled as an association list updated by `objSet`.
-/

/-- One live keyring entry of `this.keyrings`.  `builtBy` is ghost
provenance recording which `AccountImplementations` tag's constructor
produced the signer; `address` is `getAccountAddress()` and `data` is
`serialize()`, both deterministic for an initialized signer. -/
structure KeyringAccount where
  builtBy : String
  address : String
  data : String
deriving DecidableEq

/-- What an account-implementation constructor yields for a given
`deserializeState` payload: the derived address and the re-serialized
data. -/
structure AccountData where
  address : String
  data : String
deriving DecidableEq

/-- Model of `KeyringSerialisedState` (`keyring.ts` 26-30). -/
structure KeyringSerialisedState where
  type : String
  address : String
  data : String
deriving DecidableEq

/-- The stored encrypted vault blob, as the JSON envelope the service
parses: its embedded salt plus the ciphertext payload. -/
structure StoredVault where
  salt : String
  ciphertext : String
deriving DecidableEq

/-- Payload of one `vaultUpdate` dispatch (`keyring.ts` 243-249): the
record set inside the freshly encrypted vault plus the credential fields
shipped along. -/
structure VaultDispatch where
  records : List KeyringSerialisedState
  encryptionKey : Option String
  encryptionSalt : Option String
deriving DecidableEq

/-- Model of `HttpRpcClient` handle built by `init` (`keyring.ts` 94-98). -/
structure HttpRpcClient where
  bundlerUrl : String
  entryPointAddress : String
  chainId : Nat
deriving DecidableEq

/-- Mutable fields of `KeyringService` plus the log of `vaultUpdate`
dispatches sent to the store. -/
structure ServiceState where
  keyrings : List (String × KeyringAccount)
  vaultField : Option StoredVault
  password : Option String
  encryptionKey : Option String
  encryptionSalt : Option String
  bundler : Option HttpRpcClient
  dispatched : List VaultDispatch
deriving DecidableEq

/-- JS truthiness of an optional string (`undefined` and `""` are falsy). -/
def truthyOpt : Option String → Bool
  | none => false
  | some s => s != ""

/-- JS object update `obj[k] = v`: overwrite the entry at an existing key,
else append. -/
def objSet (l : List (String × KeyringAccount)) (k : String)
    (v : KeyringAccount) : List (String × KeyringAccount) :=
  if l.any (fun kv => kv.1 = k) then
    l.map (fun kv => if kv.1 = k then (k, v) else kv)
  else l ++ [(k, v)]

/-- Deterministic model of the external password encryptor
(`encryptor.encryptWithDetail`): the exported key string and the fresh
salt embedded in the new vault, as functions of the password. -/
structure EncryptorModel where
  exportedKey : String → String
  newSalt : String → String

/-- Serialization loop of `persistAllKeyrings` (`keyring.ts` 218-226):
one record per registered keyring, each tagged with the constant
`ActiveAccountImplementation`. -/
def serializeKeyrings (activeImpl : String)
    (krs : List (String × KeyringAccount)) : List KeyringSerialisedState :=
  krs.map (fun kv =>
    { type := activeImpl, address := kv.2.address, data := kv.2.data })

/-- Key-mode tail of `persistAllKeyrings` (`keyring.ts` 236-241): encrypt
with the stored key, re-attach the stored salt, dispatch. -/
def persistWithKey (records : List KeyringSerialisedState)
    (st : ServiceState) : ServiceState × Except String Unit :=
  ({ st with
      dispatched := st.dispatched ++
        [{ records := records, encryptionKey := st.encryptionKey,
           encryptionSalt := st.encryptionSalt }] },
   .ok ())

/-- Model of `KeyringService.persistAllKeyrings` (`keyring.ts` 211-250). -/
def persistAllKeyrings (enc : EncryptorModel) (activeImpl : String)
    (st : ServiceState) : ServiceState × Except String Unit :=
  if !truthyOpt st.password && !truthyOpt st.encryptionKey then
    (st, .error "Cannot persist vault without password and encryption key")
  else
    let records := serializeKeyrings activeImpl st.keyrings
    match st.password with
    | some pw =>
      if pw != "" then
        let key := enc.exportedKey pw
        let salt := enc.newSalt pw
        let st1 :=
          { st with encryptionKey := some key, encryptionSalt := some salt }
        ({ st1 with
            dispatched := st1.dispatched ++
              [{ records := records, encryptionKey := some key,
                 encryptionSalt := some salt }] },
         .ok ())
      else persistWithKey records st
    | none => persistWithKey records st

/-- Model of `ethers.constants.AddressZero`. -/
def addressZero : String := "0x0000000000000000000000000000000000000000"

/-- Model of `KeyringService.addAccount` (`keyring.ts` 252-272).  `construct` is the
external `new AccountImplementations[implementation]({...}); await
account.init(); await account.getAccountAddress()` step: building and
initializing a fresh signer for the given implementation tag and context,
or throwing. -/
def addAccount (enc : EncryptorModel) (activeImpl : String)
    (construct : String → Option String → Except String KeyringAccount)
    (implementation : String) (context : Option String)
    (st : ServiceState) : ServiceState × Except String String :=
  match construct implementation context with
  | .error e => (st, .error e)
  | .ok account =>
    if account.address = addressZero then
      (st, .error ("EntryPoint getAccountAddress returned error and returned address "
        ++ addressZero ++ ", check factory contract is properly deployed."))
    else
      let st1 := { st with keyrings := objSet st.keyrings account.address account }
      match persistAllKeyrings enc activeImpl st1 with
      | (st2, .ok _) => (st2, .ok account.address)
      | (st2, .error e) => (st2, .error e)

/-- Model of `KeyringService._newKeyring` (`keyring.ts` 164-180): look the tag up in
`AccountImplementations` (a missing tag makes `new undefined(...)` throw)
and build the signer from the serialized data.  The produced account's
`builtBy` records the registry tag whose constructor ran. -/
def newKeyring (impls : String → Option (String → AccountData))
    (type : String) (data : String) : Except String KeyringAccount :=
  match impls type with
  | none => .error ("AccountImplementations[" ++ type ++ "] is not a constructor")
  | some ctor =>
    .ok { builtBy := type, address := (ctor data).address,
          data := (ctor data).data }

/-- Model of `KeyringService._restoreKeyring` (`keyring.ts` 143-153): rebuild one
record and register it under the record's address. -/
def restoreKeyring (impls : String → Option (String → AccountData))
    (st : ServiceState) (rec : KeyringSerialisedState) :
    ServiceState × Except String Unit :=
  match newKeyring impls rec.type rec.data with
  | .error e => (st, .error e)
  | .ok acc =>
    ({ st with keyrings := objSet st.keyrings rec.address acc }, .ok ())

/-- Model of `await Promise.all(vault.map(this._restoreKeyring))` (`keyring.ts`
130), sequentialized (the spec requires order-independence of the
fan-out). -/
def restoreAllKeyrings (impls : String → Option (String → AccountData))
    (st : ServiceState) (records : List KeyringSerialisedState) :
    ServiceState × Except String Unit :=
  match records with
  | [] => (st, .ok ())
  | rec :: rest =>
    match restoreKeyring impls st rec with
    | (st1, .ok _) => restoreAllKeyrings impls st1 rest
    | (st1, .error e) => (st1, .error e)

/-- Key-mode branch of `unlockVault` (`keyring.ts` 116-128).  The third
result component records whether any decryption routine ran on the blob. -/
def unlockVaultWithKey
    (decryptWithKey : String → StoredVault →
      Except String (List KeyringSerialisedState))
    (impls : String → Option (String → AccountData))
    (encryptionKey encryptionSalt : Option String)
    (storedVault : StoredVault) (st : ServiceState) :
    ServiceState × Except String Unit × Bool :=
  if encryptionSalt ≠ some storedVault.salt then
    (st, .error "Encryption key and salt provided are expired", false)
  else
    match decryptWithKey (encryptionKey.getD "") storedVault with
    | .error e => (st, .error e, true)
    | .ok records =>
      let st1 := { st with encryptionKey := encryptionKey,
                           encryptionSalt := encryptionSalt }
      match restoreAllKeyrings impls st1 records with
      | (st2, res) => (st2, res, true)

/-- Model of `KeyringService.unlockVault` (`keyring.ts` 101-132).
`decryptWithDetail` and `decryptWithKey` are the external encryptor's
decryption routines (records, exported key string and salt on success);
the third result component records whether either ran on the blob. -/
def unlockVault
    (decryptWithDetail : String → StoredVault →
      Except String (List KeyringSerialisedState × String × String))
    (decryptWithKey : String → StoredVault →
      Except String (List KeyringSerialisedState))
    (impls : String → Option (String → AccountData))
    (password encryptionKey encryptionSalt : Option String)
    (st : ServiceState) : ServiceState × Except String Unit × Bool :=
  match st.vaultField with
  | none => (st, .error "No vault to restore", false)
  | some storedVault =>
    match password with
    | some pw =>
      if pw != "" then
        match decryptWithDetail pw storedVault with
        | .error e => (st, .error e, true)
        | .ok (records, exportedKeyString, salt) =>
          let st1 := { st with password := some pw,
                               encryptionKey := some exportedKeyString,
                               encryptionSalt := some salt }
          match restoreAllKeyrings impls st1 records with
          | (st2, res) => (st2, res, true)
      else
        unlockVaultWithKey decryptWithKey impls encryptionKey
          encryptionSalt storedVault st
    | none =>
      unlockVaultWithKey decryptWithKey impls encryptionKey
        encryptionSalt storedVault st

/-- Model of `KeyringService.clearKeyrings` (`keyring.ts` 190-193). -/
def clearKeyrings (st : ServiceState) : ServiceState :=
  { st with keyrings := [] }

/-- External chain/relay facts consulted by `init`: the chain id, the
relay's `eth_supportedEntryPoints` answer and `provider.getCode`. -/
structure ChainEnv where
  chainId : Nat
  supportedEntryPoints : List String
  code : String → String

/-- Model of `KeyringService.init` (`keyring.ts` 64-99): the entry point must be in
the relay's supported set and must have deployed bytecode, else throw;
on success the `HttpRpcClient` is built. -/
def init (env : ChainEnv) (bundlerUrl entryPointAddress : String) :
    Except String HttpRpcClient :=
  if (env.supportedEntryPoints.contains entryPointAddress) = false then
    .error ("Bundler network does not support entryPoint " ++ entryPointAddress)
  else if env.code entryPointAddress = "0x" then
    .error ("Entrypoint not deployed at " ++ entryPointAddress)
  else .ok { bundlerUrl := bundlerUrl,
             entryPointAddress := entryPointAddress,
             chainId := env.chainId }

/-- Model of `KeyringServiceCreateProps` (`keyring.ts` 32-37), with the
`mainServiceManager` presence check reduced to a flag. -/
structure KeyringServiceCreateProps where
  hasMainServiceManager : Bool
  initialVault : Option StoredVault
  initialEncryptionKey : Option String
  initialEncryptionSalt : Option String
  bundler : String
  entryPointAddress : String

/-- Model of `KeyringService.create` (`keyring.ts` 460-489): construct the state,
run `init`, then auto-unlock when the initial state carries a truthy
encryption key and salt. -/
def create
    (decryptWithDetail : String → StoredVault →
      Except String (List KeyringSerialisedState × String × String))
    (decryptWithKey : String → StoredVault →
      Except String (List KeyringSerialisedState))
    (impls : String → Option (String → AccountData))
    (env : ChainEnv) (p : KeyringServiceCreateProps) :
    Except String ServiceState :=
  if p.hasMainServiceManager = false then
    .error "mainServiceManager is needed for Keyring Servie"
  else
    let st0 : ServiceState :=
      { keyrings := [], vaultField := p.initialVault, password := none,
        encryptionKey := none, encryptionSalt := none, bundler := none,
        dispatched := [] }
    match init env p.bundler p.entryPointAddress with
    | .error e => .error e
    | .ok b =>
      let st1 := { st0 with bundler := some b }
      if truthyOpt p.initialEncryptionKey &&
          truthyOpt p.initialEncryptionSalt then
        match unlockVault decryptWithDetail decryptWithKey impls none
            p.initialEncryptionKey p.initialEncryptionSalt st1 with
        | (st2, .ok _, _) => .ok st2
        | (_, .error e, _) => .error e
      else .ok st1

/-!
Transactions redux slice
(`src/pages/Background/redux-slices/transactions.ts`).
-/

/-- Model of `TransactionState` (`transactions.ts` 9-17), with the two extra fields
the `clearTransactionState` reducer also blanks. -/
structure TransactionState where
  transactionRequest : Option String
  transactionsRequest : Option (List String)
  modifiedTransactionRequest : Option String
  requestOrigin : Option String
  userOperationRequest : Option UserOperation
  unsignedUserOperation : Option UserOperation
  typedDataRequest : Option String
  signDataRequest : Option String
deriving DecidableEq

/-- Model of `sendTransactionRequest` reducer (`transactions.ts` 76-92). -/
def sendTransactionRequest (s : TransactionState)
    (transactionRequest : String) (origin : String) : TransactionState :=
  { s with transactionRequest := some transactionRequest,
           requestOrigin := some origin }

/-- Model of `clearTransactionState` reducer (`transactions.ts` 135-145). -/
def clearTransactionState (s : TransactionState) : TransactionState :=
  { s with typedDataRequest := none, signDataRequest := none,
           transactionRequest := none, transactionsRequest := none,
           modifiedTransactionRequest := none, requestOrigin := none,
           userOperationRequest := none, unsignedUserOperation := none }

/-- Model of `rejectTransaction` thunk (`transactions.ts` 217-230): dispatch
`clearTransactionState`, then read `requestOrigin` from the store and call
`providerBridgeService.rejectRequest(requestOrigin || '', '')`.  Result:
the store state after the dispatch, and the two arguments passed to
`rejectRequest`. -/
def rejectTransaction (s : TransactionState) :
    TransactionState × String × String :=
  let s1 := clearTransactionState s
  let requestOrigin := s1.requestOrigin
  (s1, requestOrigin.getD "", "")

/-!
Lemmas about the numeric encoding layer: rendering a value with
`toHexString` and parsing it back with `bigNumberFromStr` is the
identity. -/

theorem parseHexAux_append (l₁ l₂ : List Char) (acc : Nat) :
    parseHexAux (l₁ ++ l₂) acc =
      (parseHexAux l₁ acc).bind (fun a => parseHexAux l₂ a) := by
  induction l₁ generalizing acc with
  | nil => simp [parseHexAux]
  | cons c cs ih =>
    simp only [List.cons_append, parseHexAux]
    cases hexCharVal c with
    | none => simp
    | some d => simp [ih]

theorem hexCharVal_hexDigitChar : ∀ d, d < 16 →
    hexCharVal (hexDigitChar d) = some d := by decide

theorem natToHexAux_zero (fuel : Nat) : natToHexAux fuel 0 = [] := by
  cases fuel <;> simp [natToHexAux]

theorem parseHexAux_natToHexAux (fuel : Nat) : ∀ n acc, 0 < n → n ≤ fuel →
    parseHexAux (natToHexAux fuel n) acc =
      some (acc * 16 ^ (natToHexAux fuel n).length + n) := by
  induction fuel with
  | zero => intro n acc hn hle; omega
  | succ fuel ih =>
    intro n acc hn hle
    have hne : ¬ n = 0 := Nat.pos_iff_ne_zero.mp hn
    simp only [natToHexAux, if_neg hne]
    have hmod : n % 16 < 16 := Nat.mod_lt _ (by norm_num)
    have hdig := hexCharVal_hexDigitChar (n % 16) hmod
    by_cases hq : n / 16 = 0
    · have hlt : n < 16 := by omega
      rw [hq, natToHexAux_zero]
      simp only [List.nil_append, List.length_cons, List.length_nil,
        parseHexAux, hdig]
      have : n % 16 = n := Nat.mod_eq_of_lt hlt
      rw [this]
      norm_num
    · have hqpos : 0 < n / 16 := Nat.pos_of_ne_zero hq
      have hqle : n / 16 ≤ fuel := by
        have := Nat.div_lt_self hn (by norm_num : 1 < 16)
        omega
      rw [parseHexAux_append, ih (n / 16) acc hqpos hqle]
      simp only [Option.some_bind, parseHexAux, hdig, List.length_append,
        List.length_cons, List.length_nil]
      have hdm : 16 * (n / 16) + n % 16 = n := Nat.div_add_mod n 16
      set L := (natToHexAux fuel (n / 16)).length with hL
      set q := n / 16 with hqdef
      set r := n % 16 with hrdef
      congr 1
      rw [← hdm, pow_succ]
      ring

theorem parseHexDigits_natToHex (n : Nat) :
    parseHexDigits (natToHex n) = some n := by
  unfold natToHex parseHexDigits
  by_cases h : n = 0
  · subst h; rfl
  · rw [if_neg h]
    have := parseHexAux_natToHexAux n n 0 (Nat.pos_of_ne_zero h) le_rfl
    simpa using this

theorem parseHexDigits_padEven (l : List Char) :
    parseHexDigits (padEven l) = parseHexDigits l := by
  unfold padEven
  split
  · have h0 : hexCharVal '0' = some 0 := rfl
    simp [parseHexDigits, parseHexAux, h0]
  · rfl

theorem natToHex_ne_nil (n : Nat) : natToHex n ≠ [] := by
  unfold natToHex
  split
  · simp
  · rename_i h
    cases n with
    | zero => exact absurd rfl h
    | succ m => simp [natToHexAux, h]

theorem padEven_ne_nil (l : List Char) (h : l ≠ []) : padEven l ≠ [] := by
  unfold padEven
  split
  · simp
  · exact h

/-- Round trip: `BigNumber.from` re-reads `toHexString` output exactly. -/
theorem bigNumberFromStr_toHexString (n : Nat) :
    bigNumberFromStr (toHexString n) = some n := by
  have hne : padEven (natToHex n) ≠ [] := padEven_ne_nil _ (natToHex_ne_nil n)
  show (if padEven (natToHex n) = [] then none
        else parseHexDigits (padEven (natToHex n))) = some n
  rw [if_neg hne, parseHexDigits_padEven, parseHexDigits_natToHex]

/-- The conservative adopt-if-strictly-greater update is exactly a `max`. -/
theorem ite_lt_toHexString (f e : Nat) :
    (if f < e then toHexString e else toHexString f) =
      toHexString (max f e) := by
  rcases Nat.lt_or_ge f e with h | h
  · rw [if_pos h, Nat.max_eq_right h.le]
  · rw [if_neg (Nat.not_lt.mpr h), Nat.max_eq_left h]

/-- Evaluation of the normalization block when every field parses. -/
theorem normalizeUserOp_eq (prov : ProvisionalUserOp)
    (N F1 F2 F3 F4 F5 : Nat)
    (hN : bigNumberFrom prov.nonce = some N)
    (h1 : bigNumberFrom prov.callGasLimit = some F1)
    (h2 : bigNumberFrom prov.verificationGasLimit = some F2)
    (h3 : bigNumberFrom prov.preVerificationGas = some F3)
    (h4 : bigNumberFrom prov.maxFeePerGas = some F4)
    (h5 : bigNumberFrom prov.maxPriorityFeePerGas = some F5) :
    normalizeUserOp prov = some
      { sender := prov.sender, callData := prov.callData,
        signature := prov.signature,
        nonce := toHexString N,
        callGasLimit := toHexString F1,
        verificationGasLimit := toHexString F2,
        preVerificationGas := toHexString F3,
        maxFeePerGas := toHexString F4,
        maxPriorityFeePerGas := toHexString F5 } := by
  simp [normalizeUserOp, hN, h1, h2, h3, h4, h5]

/-!
Claim theorems.
-/

/-- C1: for every provisional operation with gas floors `F1 F2 F3` (after
normalization) and every relay estimate parsing to `E1 E2 E3`, the
operation returned by `createUnsignedUserOp` has `callGasLimit`,
`verificationGasLimit` and `preVerificationGas` equal to the canonical
encoding of `max Fi Ei`, while `nonce`, `maxFeePerGas` and
`maxPriorityFeePerGas` keep the signer's normalized provisional values. -/
theorem createUnsignedUserOp_gas_merge
    (signer : AccountSigner)
    (estimate : UserOperation → EstimateUserOpGasResult)
    (prov : ProvisionalUserOp) (g : EstimateUserOpGasResult)
    (N F1 F2 F3 F4 F5 E1 E2 E3 : Nat)
    (hN : bigNumberFrom prov.nonce = some N)
    (h1 : bigNumberFrom prov.callGasLimit = some F1)
    (h2 : bigNumberFrom prov.verificationGasLimit = some F2)
    (h3 : bigNumberFrom prov.preVerificationGas = some F3)
    (h4 : bigNumberFrom prov.maxFeePerGas = some F4)
    (h5 : bigNumberFrom prov.maxPriorityFeePerGas = some F5)
    (hg : estimate (signUserOp signer
      { sender := prov.sender, callData := prov.callData,
        signature := prov.signature, nonce := toHexString N,
        callGasLimit := toHexString F1,
        verificationGasLimit := toHexString F2,
        preVerificationGas := toHexString F3,
        maxFeePerGas := toHexString F4,
        maxPriorityFeePerGas := toHexString F5 }) = g)
    (hE1 : bigNumberFrom g.callGasLimit = some E1)
    (hE2 : bigNumberFrom g.verificationGasLimit = some E2)
    (hE3 : bigNumberFrom g.preVerificationGas = some E3) :
    createUnsignedUserOp signer estimate prov = some
      { sender := prov.sender, callData := prov.callData,
        signature := prov.signature, nonce := toHexString N,
        callGasLimit := toHexString (max F1 E1),
        verificationGasLimit := toHexString (max F2 E2),
        preVerificationGas := toHexString (max F3 E3),
        maxFeePerGas := toHexString F4,
        maxPriorityFeePerGas := toHexString F5 } := by
  have hnorm := normalizeUserOp_eq prov N F1 F2 F3 F4 F5 hN h1 h2 h3 h4 h5
  simp only [createUnsignedUserOp, hnorm, Option.bind_eq_bind, Option.some_bind]
  rw [hg]
  simp only [mergeGas, hE1, hE2, hE3, Option.bind_eq_bind, Option.some_bind,
    bigNumberFromStr_toHexString, ite_lt_toHexString, Option.pure_def]

/-- C1 witness: a concrete run where the relay raises the call gas limit,
keeps the verification gas limit floor, and keeps the pre-verification
floor, while nonce and fee fields survive untouched. -/
theorem createUnsignedUserOp_gas_merge_witness :
    createUnsignedUserOp
      { dummySignature := "0xdead", realSign := fun _ => "0xreal" }
      (fun _ => { callGasLimit := BigNumberish.num 300,
                  verificationGasLimit := BigNumberish.str "0x05",
                  preVerificationGas := BigNumberish.num 7 })
      { sender := "0xAA", callData := "0x", signature := "0x",
        nonce := BigNumberish.num 1,
        callGasLimit := BigNumberish.num 200,
        verificationGasLimit := BigNumberish.num 100,
        preVerificationGas := BigNumberish.str "9",
        maxFeePerGas := BigNumberish.num 3,
        maxPriorityFeePerGas := BigNumberish.num 2 } = some
      { sender := "0xAA", callData := "0x", signature := "0x",
        nonce := "0x01", callGasLimit := "0x012c",
        verificationGasLimit := "0x64", preVerificationGas := "0x09",
        maxFeePerGas := "0x03", maxPriorityFeePerGas := "0x02" } :=
  createUnsignedUserOp_gas_merge
    { dummySignature := "0xdead", realSign := fun _ => "0xreal" }
    (fun _ => { callGasLimit := BigNumberish.num 300,
                verificationGasLimit := BigNumberish.str "0x05",
                preVerificationGas := BigNumberish.num 7 })
    { sender := "0xAA", callData := "0x", signature := "0x",
      nonce := BigNumberish.num 1,
      callGasLimit := BigNumberish.num 200,
      verificationGasLimit := BigNumberish.num 100,
      preVerificationGas := BigNumberish.str "9",
      maxFeePerGas := BigNumberish.num 3,
      maxPriorityFeePerGas := BigNumberish.num 2 }
    { callGasLimit := BigNumberish.num 300,
      verificationGasLimit := BigNumberish.str "0x05",
      preVerificationGas := BigNumberish.num 7 }
    1 200 100 9 3 2 300 5 7
    rfl rfl rfl rfl rfl rfl rfl rfl rfl rfl

/-- C2: the operation submitted to the relay for gas estimation is the
normalized provisional operation carrying the signer's placeholder
signature, and the whole pipeline is insensitive to the signer's real
signing function (estimation never invokes real signing on the operation
being estimated).  The concrete `signUserOp` lives in the account-api
sources not provided here and is modelled from the spec. -/
theorem createUnsignedUserOp_estimation_dummy_signature
    (signer : AccountSigner)
    (estimate : UserOperation → EstimateUserOpGasResult)
    (prov : ProvisionalUserOp) (norm : UserOperation)
    (rs1 rs2 : UserOperation → String)
    (hnorm : normalizeUserOp prov = some norm) :
    createUnsignedUserOp signer estimate prov =
      mergeGas norm (estimate (signUserOp signer norm)) ∧
    (signUserOp signer norm).signature = signer.dummySignature ∧
    createUnsignedUserOp { signer with realSign := rs1 } estimate prov =
      createUnsignedUserOp { signer with realSign := rs2 } estimate prov := by
  refine ⟨?_, rfl, ?_⟩
  · simp [createUnsignedUserOp, hnorm]
  · simp [createUnsignedUserOp, signUserOp, hnorm]

/-- C2 witness: concrete run of the dummy-signature estimation contract. -/
theorem createUnsignedUserOp_estimation_dummy_signature_witness :
    createUnsignedUserOp
      { dummySignature := "0xdead", realSign := fun _ => "0xreal1" }
      (fun _ => { callGasLimit := BigNumberish.num 1,
                  verificationGasLimit := BigNumberish.num 1,
                  preVerificationGas := BigNumberish.num 1 })
      { sender := "0xAA", callData := "0x", signature := "0x",
        nonce := BigNumberish.num 0, callGasLimit := BigNumberish.num 2,
        verificationGasLimit := BigNumberish.num 2,
        preVerificationGas := BigNumberish.num 2,
        maxFeePerGas := BigNumberish.num 2,
        maxPriorityFeePerGas := BigNumberish.num 2 } =
      mergeGas
        { sender := "0xAA", callData := "0x", signature := "0x",
          nonce := "0x00", callGasLimit := "0x02",
          verificationGasLimit := "0x02", preVerificationGas := "0x02",
          maxFeePerGas := "0x02", maxPriorityFeePerGas := "0x02" }
        ((fun _ => { callGasLimit := BigNumberish.num 1,
                     verificationGasLimit := BigNumberish.num 1,
                     preVerificationGas := BigNumberish.num 1 })
          (signUserOp
            { dummySignature := "0xdead", realSign := fun _ => "0xreal1" }
            { sender := "0xAA", callData := "0x", signature := "0x",
              nonce := "0x00", callGasLimit := "0x02",
              verificationGasLimit := "0x02", preVerificationGas := "0x02",
              maxFeePerGas := "0x02", maxPriorityFeePerGas := "0x02" })) ∧
    (signUserOp
      { dummySignature := "0xdead", realSign := fun _ => "0xreal1" }
      { sender := "0xAA", callData := "0x", signature := "0x",
        nonce := "0x00", callGasLimit := "0x02",
        verificationGasLimit := "0x02", preVerificationGas := "0x02",
        maxFeePerGas := "0x02",
        maxPriorityFeePerGas := "0x02" }).signature = "0xdead" ∧
    createUnsignedUserOp
      { dummySignature := "0xdead", realSign := fun _ => "0xA" }
      (fun _ => { callGasLimit := BigNumberish.num 1,
                  verificationGasLimit := BigNumberish.num 1,
                  preVerificationGas := BigNumberish.num 1 })
      { sender := "0xAA", callData := "0x", signature := "0x",
        nonce := BigNumberish.num 0, callGasLimit := BigNumberish.num 2,
        verificationGasLimit := BigNumberish.num 2,
        preVerificationGas := BigNumberish.num 2,
        maxFeePerGas := BigNumberish.num 2,
        maxPriorityFeePerGas := BigNumberish.num 2 } =
    createUnsignedUserOp
      { dummySignature := "0xdead", realSign := fun _ => "0xB" }
      (fun _ => { callGasLimit := BigNumberish.num 1,
                  verificationGasLimit := BigNumberish.num 1,
                  preVerificationGas := BigNumberish.num 1 })
      { sender := "0xAA", callData := "0x", signature := "0x",
        nonce := BigNumberish.num 0, callGasLimit := BigNumberish.num 2,
        verificationGasLimit := BigNumberish.num 2,
        preVerificationGas := BigNumberish.num 2,
        maxFeePerGas := BigNumberish.num 2,
        maxPriorityFeePerGas := BigNumberish.num 2 } :=
  createUnsignedUserOp_estimation_dummy_signature
    { dummySignature := "0xdead", realSign := fun _ => "0xreal1" }
    (fun _ => { callGasLimit := BigNumberish.num 1,
                verificationGasLimit := BigNumberish.num 1,
                preVerificationGas := BigNumberish.num 1 })
    { sender := "0xAA", callData := "0x", signature := "0x",
      nonce := BigNumberish.num 0, callGasLimit := BigNumberish.num 2,
      verificationGasLimit := BigNumberish.num 2,
      preVerificationGas := BigNumberish.num 2,
      maxFeePerGas := BigNumberish.num 2,
      maxPriorityFeePerGas := BigNumberish.num 2 }
    { sender := "0xAA", callData := "0x", signature := "0x",
      nonce := "0x00", callGasLimit := "0x02",
      verificationGasLimit := "0x02", preVerificationGas := "0x02",
      maxFeePerGas := "0x02", maxPriorityFeePerGas := "0x02" }
    (fun _ => "0xA") (fun _ => "0xB") rfl

/-- C6: the nonce and all five gas-related numeric fields are normalized to
the canonical hex encoding, the normalized operation is what gets signed
and estimated, and normalization is a function of the numeric value only:
two provisional operations whose fields denote the same integers normalize
identically. -/
theorem createUnsignedUserOp_normalization_canonical
    (prov prov2 : ProvisionalUserOp) (signer : AccountSigner)
    (estimate : UserOperation → EstimateUserOpGasResult)
    (N F1 F2 F3 F4 F5 : Nat)
    (hN : bigNumberFrom prov.nonce = some N)
    (h1 : bigNumberFrom prov.callGasLimit = some F1)
    (h2 : bigNumberFrom prov.verificationGasLimit = some F2)
    (h3 : bigNumberFrom prov.preVerificationGas = some F3)
    (h4 : bigNumberFrom prov.maxFeePerGas = some F4)
    (h5 : bigNumberFrom prov.maxPriorityFeePerGas = some F5)
    (hs : prov2.sender = prov.sender) (hcd : prov2.callData = prov.callData)
    (hsig : prov2.signature = prov.signature)
    (hN2 : bigNumberFrom prov2.nonce = some N)
    (h12 : bigNumberFrom prov2.callGasLimit = some F1)
    (h22 : bigNumberFrom prov2.verificationGasLimit = some F2)
    (h32 : bigNumberFrom prov2.preVerificationGas = some F3)
    (h42 : bigNumberFrom prov2.maxFeePerGas = some F4)
    (h52 : bigNumberFrom prov2.maxPriorityFeePerGas = some F5) :
    normalizeUserOp prov = some
      { sender := prov.sender, callData := prov.callData,
        signature := prov.signature, nonce := toHexString N,
        callGasLimit := toHexString F1,
        verificationGasLimit := toHexString F2,
        preVerificationGas := toHexString F3,
        maxFeePerGas := toHexString F4,
        maxPriorityFeePerGas := toHexString F5 } ∧
    normalizeUserOp prov2 = normalizeUserOp prov ∧
    createUnsignedUserOp signer estimate prov =
      mergeGas
        { sender := prov.sender, callData := prov.callData,
          signature := prov.signature, nonce := toHexString N,
          callGasLimit := toHexString F1,
          verificationGasLimit := toHexString F2,
          preVerificationGas := toHexString F3,
          maxFeePerGas := toHexString F4,
          maxPriorityFeePerGas := toHexString F5 }
        (estimate (signUserOp signer
          { sender := prov.sender, callData := prov.callData,
            signature := prov.signature, nonce := toHexString N,
            callGasLimit := toHexString F1,
            verificationGasLimit := toHexString F2,
            preVerificationGas := toHexString F3,
            maxFeePerGas := toHexString F4,
            maxPriorityFeePerGas := toHexString F5 })) := by
  have hnorm := normalizeUserOp_eq prov N F1 F2 F3 F4 F5 hN h1 h2 h3 h4 h5
  have hnorm2 := normalizeUserOp_eq prov2 N F1 F2 F3 F4 F5 hN2 h12 h22 h32 h42 h52
  refine ⟨hnorm, ?_, ?_⟩
  · rw [hnorm, hnorm2, hs, hcd, hsig]
  · simp only [createUnsignedUserOp, hnorm, Option.bind_eq_bind, Option.some_bind]

/-- C6 witness: a hex-string encoding and a plain-number encoding of the
same values normalize to the same canonical operation. -/
theorem createUnsignedUserOp_normalization_canonical_witness :
    normalizeUserOp
      { sender := "0xAA", callData := "0x", signature := "0x",
        nonce := BigNumberish.str "0x0a",
        callGasLimit := BigNumberish.str "10",
        verificationGasLimit := BigNumberish.num 11,
        preVerificationGas := BigNumberish.str "0x0C",
        maxFeePerGas := BigNumberish.num 13,
        maxPriorityFeePerGas := BigNumberish.str "14" } = some
      { sender := "0xAA", callData := "0x", signature := "0x",
        nonce := toHexString 10, callGasLimit := toHexString 10,
        verificationGasLimit := toHexString 11,
        preVerificationGas := toHexString 12,
        maxFeePerGas := toHexString 13,
        maxPriorityFeePerGas := toHexString 14 } ∧
    normalizeUserOp
      { sender := "0xAA", callData := "0x", signature := "0x",
        nonce := BigNumberish.num 10,
        callGasLimit := BigNumberish.num 10,
        verificationGasLimit := BigNumberish.num 11,
        preVerificationGas := BigNumberish.num 12,
        maxFeePerGas := BigNumberish.num 13,
        maxPriorityFeePerGas := BigNumberish.num 14 } =
    normalizeUserOp
      { sender := "0xAA", callData := "0x", signature := "0x",
        nonce := BigNumberish.str "0x0a",
        callGasLimit := BigNumberish.str "10",
        verificationGasLimit := BigNumberish.num 11,
        preVerificationGas := BigNumberish.str "0x0C",
        maxFeePerGas := BigNumberish.num 13,
        maxPriorityFeePerGas := BigNumberish.str "14" } ∧
    createUnsignedUserOp
      { dummySignature := "0xdead", realSign := fun _ => "0xreal" }
      (fun _ => { callGasLimit := BigNumberish.num 1,
                  verificationGasLimit := BigNumberish.num 1,
                  preVerificationGas := BigNumberish.num 1 })
      { sender := "0xAA", callData := "0x", signature := "0x",
        nonce := BigNumberish.str "0x0a",
        callGasLimit := BigNumberish.str "10",
        verificationGasLimit := BigNumberish.num 11,
        preVerificationGas := BigNumberish.str "0x0C",
        maxFeePerGas := BigNumberish.num 13,
        maxPriorityFeePerGas := BigNumberish.str "14" } =
      mergeGas
        { sender := "0xAA", callData := "0x", signature := "0x",
          nonce := toHexString 10, callGasLimit := toHexString 10,
          verificationGasLimit := toHexString 11,
          preVerificationGas := toHexString 12,
          maxFeePerGas := toHexString 13,
          maxPriorityFeePerGas := toHexString 14 }
        ((fun _ => { callGasLimit := BigNumberish.num 1,
                     verificationGasLimit := BigNumberish.num 1,
                     preVerificationGas := BigNumberish.num 1 })
          (signUserOp
            { dummySignature := "0xdead", realSign := fun _ => "0xreal" }
            { sender := "0xAA", callData := "0x", signature := "0x",
              nonce := toHexString 10, callGasLimit := toHexString 10,
              verificationGasLimit := toHexString 11,
              preVerificationGas := toHexString 12,
              maxFeePerGas := toHexString 13,
              maxPriorityFeePerGas := toHexString 14 })) :=
  createUnsignedUserOp_normalization_canonical
    { sender := "0xAA", callData := "0x", signature := "0x",
      nonce := BigNumberish.str "0x0a",
      callGasLimit := BigNumberish.str "10",
      verificationGasLimit := BigNumberish.num 11,
      preVerificationGas := BigNumberish.str "0x0C",
      maxFeePerGas := BigNumberish.num 13,
      maxPriorityFeePerGas := BigNumberish.str "14" }
    { sender := "0xAA", callData := "0x", signature := "0x",
      nonce := BigNumberish.num 10,
      callGasLimit := BigNumberish.num 10,
      verificationGasLimit := BigNumberish.num 11,
      preVerificationGas := BigNumberish.num 12,
      maxFeePerGas := BigNumberish.num 13,
      maxPriorityFeePerGas := BigNumberish.num 14 }
    { dummySignature := "0xdead", realSign := fun _ => "0xreal" }
    (fun _ => { callGasLimit := BigNumberish.num 1,
                verificationGasLimit := BigNumberish.num 1,
                preVerificationGas := BigNumberish.num 1 })
    10 10 11 12 13 14
    rfl rfl rfl rfl rfl rfl rfl rfl rfl rfl rfl rfl rfl rfl rfl

/-- C3: unlocking with a key plus a salt that differs from the salt
embedded in the stored vault blob fails with the stale-credential error,
leaves the state untouched, and never invokes a decryption routine on the
blob (the result holds for every decryption oracle, and the
decryption-attempted flag is `false`). -/
theorem unlockVault_stale_salt
    (decryptWithDetail : String → StoredVault →
      Except String (List KeyringSerialisedState × String × String))
    (decryptWithKey : String → StoredVault →
      Except String (List KeyringSerialisedState))
    (impls : String → Option (String → AccountData))
    (key s1 : String) (st : ServiceState) (v : StoredVault)
    (hv : st.vaultField = some v)
    (hsalt : s1 ≠ v.salt) :
    unlockVault decryptWithDetail decryptWithKey impls none (some key)
      (some s1) st =
      (st, .error "Encryption key and salt provided are expired", false) := by
  simp [unlockVault, unlockVaultWithKey, hv, hsalt]

/-- C3 witness: a stale salt against a concrete vault, with decryption
oracles that would succeed if they were ever consulted. -/
theorem unlockVault_stale_salt_witness :
    unlockVault
      (fun _ _ => .ok ([], "EK", "S"))
      (fun _ _ => .ok [])
      (fun _ => none)
      none (some "key-1") (some "salt-old")
      { keyrings := [], vaultField := some { salt := "salt-new", ciphertext := "ct" },
        password := none, encryptionKey := none, encryptionSalt := none,
        bundler := none, dispatched := [] } =
      ({ keyrings := [], vaultField := some { salt := "salt-new", ciphertext := "ct" },
         password := none, encryptionKey := none, encryptionSalt := none,
         bundler := none, dispatched := [] },
       .error "Encryption key and salt provided are expired", false) :=
  unlockVault_stale_salt
    (fun _ _ => .ok ([], "EK", "S"))
    (fun _ _ => .ok [])
    (fun _ => none)
    "key-1" "salt-old"
    { keyrings := [], vaultField := some { salt := "salt-new", ciphertext := "ct" },
      password := none, encryptionKey := none, encryptionSalt := none,
      bundler := none, dispatched := [] }
    { salt := "salt-new", ciphertext := "ct" }
    rfl (by decide)

/-- C4: when the freshly initialized signer derives the canonical zero
address, `addAccount` fails with the address-derivation error and returns
the state exactly as it was: nothing is registered and no vault persist is
dispatched. -/
theorem addAccount_zero_address
    (enc : EncryptorModel) (activeImpl : String)
    (construct : String → Option String → Except String KeyringAccount)
    (implementation : String) (context : Option String)
    (st : ServiceState) (account : KeyringAccount)
    (hc : construct implementation context = .ok account)
    (hz : account.address = addressZero) :
    addAccount enc activeImpl construct implementation context st =
      (st, .error ("EntryPoint getAccountAddress returned error and returned address "
        ++ addressZero ++ ", check factory contract is properly deployed.")) ∧
    (addAccount enc activeImpl construct implementation context st).1.keyrings
      = st.keyrings ∧
    (addAccount enc activeImpl construct implementation context st).1.dispatched
      = st.dispatched := by
  have h : addAccount enc activeImpl construct implementation context st =
      (st, .error ("EntryPoint getAccountAddress returned error and returned address "
        ++ addressZero ++ ", check factory contract is properly deployed.")) := by
    simp [addAccount, hc, hz]
  exact ⟨h, by rw [h], by rw [h]⟩

/-- C4 witness: a signer deriving the zero address against a state that
already holds one keyring and one dispatched persist. -/
theorem addAccount_zero_address_witness :
    addAccount
      { exportedKey := fun _ => "EK", newSalt := fun _ => "S" }
      "active"
      (fun _ _ => .ok { builtBy := "active", address := addressZero, data := "d" })
      "active" none
      { keyrings := [("0xBB", { builtBy := "legacy", address := "0xBB", data := "db" })],
        vaultField := none, password := some "pw", encryptionKey := none,
        encryptionSalt := none, bundler := none, dispatched := [] } =
      ({ keyrings := [("0xBB", { builtBy := "legacy", address := "0xBB", data := "db" })],
         vaultField := none, password := some "pw", encryptionKey := none,
         encryptionSalt := none, bundler := none, dispatched := [] },
       .error ("EntryPoint getAccountAddress returned error and returned address "
         ++ addressZero ++ ", check factory contract is properly deployed.")) ∧
    (addAccount
      { exportedKey := fun _ => "EK", newSalt := fun _ => "S" }
      "active"
      (fun _ _ => .ok { builtBy := "active", address := addressZero, data := "d" })
      "active" none
      { keyrings := [("0xBB", { builtBy := "legacy", address := "0xBB", data := "db" })],
        vaultField := none, password := some "pw", encryptionKey := none,
        encryptionSalt := none, bundler := none, dispatched := [] }).1.keyrings =
      [("0xBB", { builtBy := "legacy", address := "0xBB", data := "db" })] ∧
    (addAccount
      { exportedKey := fun _ => "EK", newSalt := fun _ => "S" }
      "active"
      (fun _ _ => .ok { builtBy := "active", address := addressZero, data := "d" })
      "active" none
      { keyrings := [("0xBB", { builtBy := "legacy", address := "0xBB", data := "db" })],
        vaultField := none, password := some "pw", encryptionKey := none,
        encryptionSalt := none, bundler := none, dispatched := [] }).1.dispatched = [] :=
  addAccount_zero_address
    { exportedKey := fun _ => "EK", newSalt := fun _ => "S" }
    "active"
    (fun _ _ => .ok { builtBy := "active", address := addressZero, data := "d" })
    "active" none
    { keyrings := [("0xBB", { builtBy := "legacy", address := "0xBB", data := "db" })],
      vaultField := none, password := some "pw", encryptionKey := none,
      encryptionSalt := none, bundler := none, dispatched := [] }
    { builtBy := "active", address := addressZero, data := "d" }
    rfl rfl

/-- C7 counterexample: `clearKeyrings` does not drop the active
credential.  At a concrete state holding a password, an encryption key and
a salt, all three survive the call, refuting the claim that the active
credential has been dropped when `clearKeyrings` returns. -/
theorem clearKeyrings_does_not_drop_credential :
    ¬(((clearKeyrings
        { keyrings := [("0xBB", { builtBy := "legacy", address := "0xBB", data := "db" })],
          vaultField := some { salt := "S", ciphertext := "ct" },
          password := some "pw", encryptionKey := some "EK",
          encryptionSalt := some "S", bundler := none,
          dispatched := [] }).password = none) ∧
      ((clearKeyrings
        { keyrings := [("0xBB", { builtBy := "legacy", address := "0xBB", data := "db" })],
          vaultField := some { salt := "S", ciphertext := "ct" },
          password := some "pw", encryptionKey := some "EK",
          encryptionSalt := some "S", bundler := none,
          dispatched := [] }).encryptionKey = none) ∧
      ((clearKeyrings
        { keyrings := [("0xBB", { builtBy := "legacy", address := "0xBB", data := "db" })],
          vaultField := some { salt := "S", ciphertext := "ct" },
          password := some "pw", encryptionKey := some "EK",
          encryptionSalt := some "S", bundler := none,
          dispatched := [] }).encryptionSalt = none)) := by
  decide

/-- C7 (amended): after `clearKeyrings` returns, the in-memory keyring
cache is empty, while the active credential fields (password, encryption
key, salt), the stored vault blob and the dispatch log are all unchanged
from before the call. -/
theorem clearKeyrings_frame (st : ServiceState) :
    (clearKeyrings st).keyrings = [] ∧
    (clearKeyrings st).password = st.password ∧
    (clearKeyrings st).encryptionKey = st.encryptionKey ∧
    (clearKeyrings st).encryptionSalt = st.encryptionSalt ∧
    (clearKeyrings st).vaultField = st.vaultField ∧
    (clearKeyrings st).dispatched = st.dispatched :=
  ⟨rfl, rfl, rfl, rfl, rfl, rfl⟩

/-- Whether an `Except` result is an error. -/
def exceptIsError {α : Type} (e : Except String α) : Bool :=
  match e with
  | .error _ => true
  | .ok _ => false

/-- C8: when the configured entry point is not in the relay's supported
set, or has no deployed bytecode, `init` fails, and `create` (which runs
`init` before returning the service) also fails, so no service state is
ever produced in that situation. -/
theorem init_entry_point_fatal
    (decryptWithDetail : String → StoredVault →
      Except String (List KeyringSerialisedState × String × String))
    (decryptWithKey : String → StoredVault →
      Except String (List KeyringSerialisedState))
    (impls : String → Option (String → AccountData))
    (env : ChainEnv) (p : KeyringServiceCreateProps)
    (hmsm : p.hasMainServiceManager = true)
    (hbad : env.supportedEntryPoints.contains p.entryPointAddress = false ∨
            env.code p.entryPointAddress = "0x") :
    exceptIsError (init env p.bundler p.entryPointAddress) = true ∧
    exceptIsError (create decryptWithDetail decryptWithKey impls env p)
      = true := by
  have hinit : exceptIsError (init env p.bundler p.entryPointAddress) = true := by
    rcases hbad with h | h
    · have hmem : p.entryPointAddress ∉ env.supportedEntryPoints := by
        simpa using h
      simp [init, hmem, exceptIsError]
    · by_cases hmem : p.entryPointAddress ∈ env.supportedEntryPoints
      · simp [init, hmem, h, exceptIsError]
      · simp [init, hmem, exceptIsError]
  refine ⟨hinit, ?_⟩
  cases hini : init env p.bundler p.entryPointAddress with
  | error e => simp [create, hmsm, hini, exceptIsError]
  | ok b => rw [hini] at hinit; simp [exceptIsError] at hinit

/-- C8 witness: a relay supporting no entry points makes both `init` and
`create` fail. -/
theorem init_entry_point_fatal_witness :
    exceptIsError
      (init { chainId := 1, supportedEntryPoints := [],
              code := fun _ => "0x6080" } "http-bundler" "0xEP") = true ∧
    exceptIsError
      (create (fun _ _ => .ok ([], "EK", "S")) (fun _ _ => .ok [])
        (fun _ => none)
        { chainId := 1, supportedEntryPoints := [], code := fun _ => "0x6080" }
        { hasMainServiceManager := true, initialVault := none,
          initialEncryptionKey := none, initialEncryptionSalt := none,
          bundler := "http-bundler", entryPointAddress := "0xEP" }) = true :=
  init_entry_point_fatal
    (fun _ _ => .ok ([], "EK", "S")) (fun _ _ => .ok []) (fun _ => none)
    { chainId := 1, supportedEntryPoints := [], code := fun _ => "0x6080" }
    { hasMainServiceManager := true, initialVault := none,
      initialEncryptionKey := none, initialEncryptionSalt := none,
      bundler := "http-bundler", entryPointAddress := "0xEP" }
    rfl (Or.inl rfl)

/-- C10: the `rejectTransaction` thunk dispatches `clearTransactionState`
before reading `requestOrigin` from the store, so the origin argument it
passes to `rejectRequest` is always the empty string — even immediately
after a transaction request arrived with a non-empty origin. -/
theorem rejectTransaction_passes_empty_origin (s : TransactionState)
    (req origin : String) :
    rejectTransaction s = (clearTransactionState s, "", "") ∧
    (rejectTransaction (sendTransactionRequest s req origin)).2.1 = "" :=
  ⟨rfl, rfl⟩

theorem objSet_self_mem (l : List (String × KeyringAccount)) (k : String)
    (v : KeyringAccount) : (k, v) ∈ objSet l k v := by
  unfold objSet
  split
  · rename_i h
    simp only [List.any_eq_true, decide_eq_true_eq] at h
    obtain ⟨kv, hkv, hk⟩ := h
    refine List.mem_map.mpr ⟨kv, hkv, ?_⟩
    simp [hk]
  · simp

theorem objSet_mem_of_ne (l : List (String × KeyringAccount)) (k : String)
    (v : KeyringAccount) (k' : String) (v' : KeyringAccount)
    (hmem : (k', v') ∈ l) (hne : k' ≠ k) : (k', v') ∈ objSet l k v := by
  unfold objSet
  split
  · refine List.mem_map.mpr ⟨(k', v'), hmem, ?_⟩
    simp [hne]
  · exact List.mem_append_left _ hmem

/-- With an active credential, a persist succeeds, leaves the registry
untouched, and appends one dispatch whose record set serializes the whole
current registry. -/
theorem persistAllKeyrings_ok (enc : EncryptorModel) (activeImpl : String)
    (st : ServiceState)
    (hcred : truthyOpt st.password = true ∨ truthyOpt st.encryptionKey = true) :
    ∃ k s, persistAllKeyrings enc activeImpl st =
      ({ st with
          encryptionKey := k, encryptionSalt := s,
          dispatched := st.dispatched ++
            [{ records := serializeKeyrings activeImpl st.keyrings,
               encryptionKey := k, encryptionSalt := s }] }, .ok ()) := by
  cases hpw : st.password with
  | some pw =>
    by_cases hpwe : pw = ""
    · subst hpwe
      have hkey : truthyOpt st.encryptionKey = true := by
        rcases hcred with h | h
        · rw [hpw] at h; simp [truthyOpt] at h
        · exact h
      have h0 : truthyOpt (some "") = false := rfl
      refine ⟨st.encryptionKey, st.encryptionSalt, ?_⟩
      simp [persistAllKeyrings, hpw, h0, hkey, persistWithKey]
    · have hpt : truthyOpt (some pw) = true := by simp [truthyOpt, hpwe]
      refine ⟨some (enc.exportedKey pw), some (enc.newSalt pw), ?_⟩
      simp [persistAllKeyrings, hpw, hpt, hpwe]
  | none =>
    have hkey : truthyOpt st.encryptionKey = true := by
      rcases hcred with h | h
      · rw [hpw] at h; simp [truthyOpt] at h
      · exact h
    have h0 : truthyOpt (none : Option String) = false := rfl
    refine ⟨st.encryptionKey, st.encryptionSalt, ?_⟩
    simp [persistAllKeyrings, hpw, h0, hkey, persistWithKey]

/-- C5: a successful `addAccount` registers the signer and completes a
vault persist before returning the address, and the record set written by
that persist serializes the entire registry at persist time — one record
per registered keyring, covering every pre-existing keyring and the new
one — not a delta with only the new record. -/
theorem addAccount_persists_full_registry
    (enc : EncryptorModel) (activeImpl : String)
    (construct : String → Option String → Except String KeyringAccount)
    (implementation : String) (context : Option String)
    (st : ServiceState) (account : KeyringAccount)
    (hc : construct implementation context = .ok account)
    (hz : account.address ≠ addressZero)
    (hcred : truthyOpt st.password = true ∨ truthyOpt st.encryptionKey = true) :
    (addAccount enc activeImpl construct implementation context st).2
      = .ok account.address ∧
    (addAccount enc activeImpl construct implementation context st).1.keyrings
      = objSet st.keyrings account.address account ∧
    (addAccount enc activeImpl construct implementation context st).1.dispatched
      = st.dispatched ++
        [{ records := serializeKeyrings activeImpl
             (objSet st.keyrings account.address account),
           encryptionKey := (addAccount enc activeImpl construct
             implementation context st).1.encryptionKey,
           encryptionSalt := (addAccount enc activeImpl construct
             implementation context st).1.encryptionSalt }] ∧
    ({ type := activeImpl, address := account.address, data := account.data }
        : KeyringSerialisedState)
      ∈ serializeKeyrings activeImpl (objSet st.keyrings account.address account) ∧
    (∀ kv ∈ st.keyrings, kv.1 ≠ account.address →
      ({ type := activeImpl, address := kv.2.address, data := kv.2.data }
          : KeyringSerialisedState)
        ∈ serializeKeyrings activeImpl (objSet st.keyrings account.address account)) ∧
    (serializeKeyrings activeImpl (objSet st.keyrings account.address account)).length
      = (objSet st.keyrings account.address account).length := by
  obtain ⟨k, s, hper⟩ := persistAllKeyrings_ok enc activeImpl
    { st with keyrings := objSet st.keyrings account.address account } hcred
  have hadd : addAccount enc activeImpl construct implementation context st =
      ({ st with
          keyrings := objSet st.keyrings account.address account,
          encryptionKey := k, encryptionSalt := s,
          dispatched := st.dispatched ++
            [{ records := serializeKeyrings activeImpl
                 (objSet st.keyrings account.address account),
               encryptionKey := k, encryptionSalt := s }] },
       .ok account.address) := by
    simp only [addAccount, hc]
    rw [if_neg hz, hper]
  refine ⟨by rw [hadd], by rw [hadd], by rw [hadd], ?_, ?_, ?_⟩
  · exact List.mem_map_of_mem _ (objSet_self_mem st.keyrings account.address account)
  · intro kv hkv hne
    exact List.mem_map_of_mem _
      (objSet_mem_of_ne st.keyrings account.address account kv.1 kv.2 hkv hne)
  · simp [serializeKeyrings]

/-- C5 witness: adding a signer at `0xAA` to a registry already holding
`0xBB` persists a two-record vault containing both. -/
theorem addAccount_persists_full_registry_witness :
    (addAccount { exportedKey := fun _ => "EK2", newSalt := fun _ => "S2" }
      "active"
      (fun _ _ => .ok { builtBy := "active", address := "0xAA", data := "da" })
      "active" none
      { keyrings := [("0xBB", { builtBy := "legacy", address := "0xBB", data := "db" })],
        vaultField := none, password := some "pw", encryptionKey := none,
        encryptionSalt := none, bundler := none, dispatched := [] }).2
      = .ok "0xAA" ∧
    (addAccount { exportedKey := fun _ => "EK2", newSalt := fun _ => "S2" }
      "active"
      (fun _ _ => .ok { builtBy := "active", address := "0xAA", data := "da" })
      "active" none
      { keyrings := [("0xBB", { builtBy := "legacy", address := "0xBB", data := "db" })],
        vaultField := none, password := some "pw", encryptionKey := none,
        encryptionSalt := none, bundler := none, dispatched := [] }).1.keyrings
      = objSet [("0xBB", { builtBy := "legacy", address := "0xBB", data := "db" })]
          "0xAA" { builtBy := "active", address := "0xAA", data := "da" } ∧
    (addAccount { exportedKey := fun _ => "EK2", newSalt := fun _ => "S2" }
      "active"
      (fun _ _ => .ok { builtBy := "active", address := "0xAA", data := "da" })
      "active" none
      { keyrings := [("0xBB", { builtBy := "legacy", address := "0xBB", data := "db" })],
        vaultField := none, password := some "pw", encryptionKey := none,
        encryptionSalt := none, bundler := none, dispatched := [] }).1.dispatched
      = [] ++
        [{ records := serializeKeyrings "active"
             (objSet [("0xBB", { builtBy := "legacy", address := "0xBB", data := "db" })]
               "0xAA" { builtBy := "active", address := "0xAA", data := "da" }),
           encryptionKey := (addAccount
             { exportedKey := fun _ => "EK2", newSalt := fun _ => "S2" }
             "active"
             (fun _ _ => .ok { builtBy := "active", address := "0xAA", data := "da" })
             "active" none
             { keyrings := [("0xBB", { builtBy := "legacy", address := "0xBB", data := "db" })],
               vaultField := none, password := some "pw", encryptionKey := none,
               encryptionSalt := none, bundler := none,
               dispatched := [] }).1.encryptionKey,
           encryptionSalt := (addAccount
             { exportedKey := fun _ => "EK2", newSalt := fun _ => "S2" }
             "active"
             (fun _ _ => .ok { builtBy := "active", address := "0xAA", data := "da" })
             "active" none
             { keyrings := [("0xBB", { builtBy := "legacy", address := "0xBB", data := "db" })],
               vaultField := none, password := some "pw", encryptionKey := none,
               encryptionSalt := none, bundler := none,
               dispatched := [] }).1.encryptionSalt }] ∧
    ({ type := "active", address := "0xAA", data := "da" } : KeyringSerialisedState)
      ∈ serializeKeyrings "active"
          (objSet [("0xBB", { builtBy := "legacy", address := "0xBB", data := "db" })]
            "0xAA" { builtBy := "active", address := "0xAA", data := "da" }) ∧
    (∀ kv ∈ [("0xBB", ({ builtBy := "legacy", address := "0xBB", data := "db" }
        : KeyringAccount))], kv.1 ≠ "0xAA" →
      ({ type := "active", address := kv.2.address, data := kv.2.data }
          : KeyringSerialisedState)
        ∈ serializeKeyrings "active"
            (objSet [("0xBB", { builtBy := "legacy", address := "0xBB", data := "db" })]
              "0xAA" { builtBy := "active", address := "0xAA", data := "da" })) ∧
    (serializeKeyrings "active"
      (objSet [("0xBB", { builtBy := "legacy", address := "0xBB", data := "db" })]
        "0xAA" { builtBy := "active", address := "0xAA", data := "da" })).length
      = (objSet [("0xBB", { builtBy := "legacy", address := "0xBB", data := "db" })]
          "0xAA" { builtBy := "active", address := "0xAA", data := "da" }).length :=
  addAccount_persists_full_registry
    { exportedKey := fun _ => "EK2", newSalt := fun _ => "S2" }
    "active"
    (fun _ _ => .ok { builtBy := "active", address := "0xAA", data := "da" })
    "active" none
    { keyrings := [("0xBB", { builtBy := "legacy", address := "0xBB", data := "db" })],
      vaultField := none, password := some "pw", encryptionKey := none,
      encryptionSalt := none, bundler := none, dispatched := [] }
    { builtBy := "active", address := "0xAA", data := "da" }
    rfl (by decide) (Or.inl rfl)

/-- C9: every record written by `persistAllKeyrings` carries the constant
type tag `ActiveAccountImplementation` regardless of the implementation
each keyring was originally built by, so a persist-then-restore round trip
rebuilds every signer with the constructor registered for the active
implementation tag rather than with the implementation recorded at first
creation. -/
theorem persist_restore_active_implementation
    (activeImpl : String) (krs : List (String × KeyringAccount))
    (impls : String → Option (String → AccountData))
    (ctor : String → AccountData)
    (himpl : impls activeImpl = some ctor) :
    (∀ rec ∈ serializeKeyrings activeImpl krs, rec.type = activeImpl) ∧
    (∀ rec ∈ serializeKeyrings activeImpl krs,
      newKeyring impls rec.type rec.data =
        .ok { builtBy := activeImpl, address := (ctor rec.data).address,
              data := (ctor rec.data).data }) ∧
    (∀ st : ServiceState, ∀ rec ∈ serializeKeyrings activeImpl krs,
      restoreKeyring impls st rec =
        ({ st with
            keyrings := objSet st.keyrings rec.address
              { builtBy := activeImpl, address := (ctor rec.data).address,
                data := (ctor rec.data).data } }, .ok ())) := by
  have htype : ∀ rec ∈ serializeKeyrings activeImpl krs, rec.type = activeImpl := by
    intro rec hrec
    obtain ⟨kv, _, hkv⟩ := List.mem_map.mp hrec
    rw [← hkv]
  have hnew : ∀ rec ∈ serializeKeyrings activeImpl krs,
      newKeyring impls rec.type rec.data =
        .ok { builtBy := activeImpl, address := (ctor rec.data).address,
              data := (ctor rec.data).data } := by
    intro rec hrec
    rw [htype rec hrec]
    simp [newKeyring, himpl]
  refine ⟨htype, hnew, ?_⟩
  intro st rec hrec
  simp [restoreKeyring, hnew rec hrec]

/-- C9 witness: a keyring originally built by the `legacy` implementation
is persisted with the `active` tag and restored through the constructor
registered at `active`. -/
theorem persist_restore_active_implementation_witness :
    (∀ rec ∈ serializeKeyrings "active"
        [("0xBB", { builtBy := "legacy", address := "0xBB", data := "db" })],
      rec.type = "active") ∧
    (∀ rec ∈ serializeKeyrings "active"
        [("0xBB", { builtBy := "legacy", address := "0xBB", data := "db" })],
      newKeyring
        (fun t => if t = "active" then
          some (fun d => ({ address := "0xNEW", data := d } : AccountData))
          else none)
        rec.type rec.data =
        .ok { builtBy := "active",
              address := ((fun d => ({ address := "0xNEW", data := d }
                : AccountData)) rec.data).address,
              data := ((fun d => ({ address := "0xNEW", data := d }
                : AccountData)) rec.data).data }) ∧
    (∀ st : ServiceState, ∀ rec ∈ serializeKeyrings "active"
        [("0xBB", { builtBy := "legacy", address := "0xBB", data := "db" })],
      restoreKeyring
        (fun t => if t = "active" then
          some (fun d => ({ address := "0xNEW", data := d } : AccountData))
          else none)
        st rec =
        ({ st with
            keyrings := objSet st.keyrings rec.address
             { builtBy := "active",
               address := ((fun d => ({ address := "0xNEW", data := d }
                 : AccountData)) rec.data).address,
               data := ((fun d => ({ address := "0xNEW", data := d }
                 : AccountData)) rec.data).data } }, .ok ())) :=
  persist_restore_active_implementation "active"
    [("0xBB", { builtBy := "legacy", address := "0xBB", data := "db" })]
    (fun t => if t = "active" then
      some (fun d => ({ address := "0xNEW", data := d } : AccountData))
      else none)
    (fun d => ({ address := "0xNEW", data := d } : AccountData))
    rfl

end Trampoline
